import Mathlib

/-!
Shallow embedding of the appointment-booking repository's core
(src/calendar_service.py, src/payment_service.py, src/pages/book.py).

Time is modelled in whole minutes of local wall-clock time since an
arbitrary reference midnight.  The source localizes every datetime into a
single fixed zone before any arithmetic and never re-normalizes after
timedelta addition, so its datetime arithmetic behaves exactly like
fixed-offset (naive) minute arithmetic; a day is 1440 minutes and the
hour of an instant is recovered by division.
-/

namespace Appointment

/-- Business hours start (calendar_service.py line 63). -/
def business_start_hour : Nat := 9

/-- Business hours end (calendar_service.py line 64). -/
def business_end_hour : Nat := 17

/-- The hour component of an instant, as in the source's current_slot.hour. -/
def hourOf (t : Nat) : Nat := t / 60 % 24

/-- The source's start_datetime.replace(hour=business_start_hour, minute=0,
second=0, microsecond=0) — 09:00 on the same local day (calendar_service.py
lines 68-73). -/
def dayAnchor (t : Nat) : Nat := t / 1440 * 1440 + business_start_hour * 60

/-- A busy period reported by the freebusy query, keys start/end in the
source; end is renamed finish because it is a Lean keyword. -/
structure BusyInterval where
  start : Nat
  finish : Nat
deriving DecidableEq

/-- An available slot dict with keys start/end (calendar_service.py
lines 106-109); end is renamed finish. -/
structure Slot where
  start : Nat
  finish : Nat
deriving DecidableEq

/-- The slot/busy overlap test of calendar_service.py lines 99-101:
the slot starts inside the busy period, or ends inside it, or contains it. -/
def overlapsBusy (current_slot slot_end : Nat) (busy : BusyInterval) : Bool :=
  decide ((busy.start ≤ current_slot ∧ current_slot < busy.finish) ∨
    (busy.start < slot_end ∧ slot_end ≤ busy.finish) ∨
    (current_slot ≤ busy.start ∧ busy.finish ≤ slot_end))

/-- The slot-generation while loop of calendar_service.py lines 75-111.
The loop advances current_slot by duration_minutes on every iteration, so
for a positive duration it runs at most end_datetime - current_slot times;
the fuel argument bounds the iteration count structurally and the caller
supplies end_datetime, which is enough fuel whenever the source loop
terminates.  The source's second guard (move to next day if past business
hours, lines 82-89) is unreachable because the first guard (lines 77-79)
already skips every hour at or past business_end_hour, so it is omitted. -/
def slotsLoop (end_datetime duration_minutes : Nat) (busy_periods : List BusyInterval) :
    Nat → Nat → List Slot
  | 0, _ => []
  | fuel + 1, current_slot =>
    if current_slot < end_datetime then
      if hourOf current_slot < business_start_hour ∨ business_end_hour ≤ hourOf current_slot then
        slotsLoop end_datetime duration_minutes busy_periods fuel (current_slot + duration_minutes)
      else
        if busy_periods.any (overlapsBusy current_slot (current_slot + duration_minutes)) then
          slotsLoop end_datetime duration_minutes busy_periods fuel (current_slot + duration_minutes)
        else
          { start := current_slot, finish := current_slot + duration_minutes } ::
            slotsLoop end_datetime duration_minutes busy_periods fuel (current_slot + duration_minutes)
    else []

/-- Error taxonomy name used by the specification for a failed busy query. -/
inductive CalendarError
  | calendarUnavailable
deriving DecidableEq

/-- get_available_slots (calendar_service.py lines 36-117).  The fallible
external freebusy query is passed in as an Except value; the source wraps
the whole body in try/except and its handler logs and returns the empty
list (lines 115-117), hence the error branch produces Except.ok [].  The
codomain carries a CalendarError channel so the specification's claim
about surfacing CalendarUnavailable can be stated; the source never uses
it. -/
def get_available_slots (busy_query : Except Unit (List BusyInterval))
    (start_datetime end_datetime duration_minutes : Nat) :
    Except CalendarError (List Slot) :=
  match busy_query with
  | .error _ => .ok []
  | .ok busy_periods =>
      .ok (slotsLoop end_datetime duration_minutes busy_periods end_datetime
        (dayAnchor start_datetime))

/-- Python's built-in round at an exact rational value: round half to even
(banker's rounding).  The float representation error of the source is far
below the 1/3-of-a-cent distance every reachable cost keeps from a rounding
boundary, so exact rational arithmetic is faithful here. -/
def pyRound (x : ℚ) : ℤ :=
  if Int.fract x = 1 / 2 then (if ⌊x⌋ % 2 = 0 then ⌊x⌋ else ⌊x⌋ + 1) else round x

/-- The source's round(cost, 2): round to 2 decimal places. -/
def round2 (x : ℚ) : ℚ := (pyRound (x * 100) : ℚ) / 100

/-- base_rates.get(appointment_type, base_rates['general'])
(payment_service.py lines 90-97). -/
def base_rate (appointment_type : String) : ℚ :=
  if appointment_type = "consultation" then 200
  else if appointment_type = "follow_up" then 150
  else 100

/-- get_appointment_cost (payment_service.py lines 78-102):
cost = (hourly_rate / 60) * duration, rounded to 2 decimal places. -/
def get_appointment_cost (appointment_type : String) (duration : Nat) : ℚ :=
  round2 (base_rate appointment_type / 60 * duration)

/-- The PricingPolicy quote contract as the specification words it: an hourly
rate by category (consultation 200, follow_up 150, general 100, general as
fallback) pro-rated linearly by duration and rounded to 2 decimal places
using standard half-up rounding (Mathlib's round rounds halves up). -/
def quote_spec (category : String) (duration_minutes : Nat) : ℚ :=
  (round ((if category = "consultation" then (200 : ℚ)
    else if category = "follow_up" then 150 else 100) / 60 * duration_minutes * 100) : ℚ) / 100

/-- Customer details collected by the booking form (book.py lines 214-220). -/
structure CustomerDetails where
  email : String
  name : String
  phone : String
  notes : String
deriving DecidableEq

/-- The booking wizard's session state (book.py lines 66-80): step 1 is
SelectSlot, 2 is ConfirmDetails, 3 is Payment. -/
structure SessionState where
  booking_step : Nat
  selected_slot : Option Slot
  customer_details : Option CustomerDetails
  payment_url : Option String
  appointment_type : String
deriving DecidableEq

/-- The global Back button (book.py lines 299-302): it only decrements
booking_step. -/
def go_back (s : SessionState) : SessionState :=
  { s with booking_step := s.booking_step - 1 }

/-- The Back button inside step 3 (book.py lines 292-294): it only sets
booking_step to 2. -/
def back_from_payment (s : SessionState) : SessionState :=
  { s with booking_step := 2 }

/-- A calendar event as built for insertion (calendar_service.py
lines 126-147); the reminder overrides are fixed and not modelled. -/
structure Event where
  summary : String
  description : String
  start : Nat
  finish : Nat
  attendee : String
deriving DecidableEq

/-- create_appointment (calendar_service.py lines 119-160):
end_time = start_time + duration_minutes; the external insert call may fail,
modelled by insert_ok — the except handler returns None. -/
def create_appointment (insert_ok : Bool) (start_time duration_minutes : Nat)
    (summary description attendee_email : String) : Option Event :=
  let event : Event :=
    { summary := summary, description := description,
      start := start_time, finish := start_time + duration_minutes,
      attendee := attendee_email }
  if insert_ok then some event else none

/-- create_confirmed_appointment (book.py lines 88-131): creates the
appointment starting at slot.start with the caller-supplied duration, then
sends a confirmation email whose result is ignored (send_booking_link
catches its own failures and returns a Boolean, gmail_monitor.py lines
102-172), and returns True iff the calendar write succeeded.  The cosmetic
replace/title-casing in the summary string is not modelled.  The submitted
event is exposed alongside the Boolean result so theorems can speak about
what was written. -/
def create_confirmed_appointment (insert_ok : Bool) (slot : Slot)
    (customer_details : CustomerDetails) (appointment_type : String)
    (duration : Nat) : Bool × Option Event :=
  match create_appointment insert_ok slot.start duration
      (appointment_type ++ " - " ++ customer_details.name)
      ("Type: " ++ appointment_type ++ "\nPhone: " ++ customer_details.phone ++
        "\nNotes: " ++ customer_details.notes)
      customer_details.email with
  | some event => (true, some event)
  | none => (false, none)

/-- The payment-completed handler in main (book.py lines 260-272): the
duration is recomputed from the selected slot as end minus start (in whole
minutes), then the confirmed appointment is created. -/
def confirm_selected_slot (insert_ok : Bool) (slot : Slot)
    (customer_details : CustomerDetails) (appointment_type : String) :
    Bool × Option Event :=
  create_confirmed_appointment insert_ok slot customer_details appointment_type
    (slot.finish - slot.start)

/-- The sixteen slots the loop yields over a full day with business hours
9-17, duration 30 and no busy intervals (Scenario A of the specification). -/
def scenario_a_slots : List Slot :=
  [⟨540, 570⟩, ⟨570, 600⟩, ⟨600, 630⟩, ⟨630, 660⟩, ⟨660, 690⟩, ⟨690, 720⟩,
   ⟨720, 750⟩, ⟨750, 780⟩, ⟨780, 810⟩, ⟨810, 840⟩, ⟨840, 870⟩, ⟨870, 900⟩,
   ⟨900, 930⟩, ⟨930, 960⟩, ⟨960, 990⟩, ⟨990, 1020⟩]

/-- Every slot the loop emits ends duration_minutes after it starts, starts
at an hour inside business hours, overlaps no input busy interval, and
starts a whole number of duration_minutes steps after the cursor position
the loop was entered with. -/
theorem slotsLoop_mem (end_datetime duration_minutes : Nat)
    (busy_periods : List BusyInterval) (fuel : Nat) (current_slot : Nat) (slot : Slot)
    (hmem : slot ∈ slotsLoop end_datetime duration_minutes busy_periods fuel current_slot) :
    slot.finish = slot.start + duration_minutes ∧
    business_start_hour ≤ hourOf slot.start ∧ hourOf slot.start < business_end_hour ∧
    (∀ b ∈ busy_periods, overlapsBusy slot.start slot.finish b = false) ∧
    ∃ k : Nat, slot.start = current_slot + k * duration_minutes := by
  induction fuel generalizing current_slot with
  | zero => simp [slotsLoop] at hmem
  | succ fuel ih =>
    rw [slotsLoop] at hmem
    split at hmem
    · split at hmem
      · obtain ⟨hf, hh1, hh2, hb, k, hk⟩ := ih _ hmem
        exact ⟨hf, hh1, hh2, hb, k + 1, by rw [hk]; ring⟩
      · rename_i hin hhour
        split at hmem
        · obtain ⟨hf, hh1, hh2, hb, k, hk⟩ := ih _ hmem
          exact ⟨hf, hh1, hh2, hb, k + 1, by rw [hk]; ring⟩
        · rename_i hfree
          rcases List.mem_cons.mp hmem with rfl | hmem'
          · push_neg at hhour
            refine ⟨rfl, hhour.1, hhour.2, ?_, 0, by ring⟩
            intro b hb
            rw [Bool.eq_false_iff]
            intro hcontra
            exact hfree (List.any_eq_true.mpr ⟨b, hb, hcontra⟩)
          · obtain ⟨hf, hh1, hh2, hb, k, hk⟩ := ih _ hmem'
            exact ⟨hf, hh1, hh2, hb, k + 1, by rw [hk]; ring⟩
    · simp at hmem

/-- C2: every slot emitted by the slot computation, paired with any busy
interval of the input set, satisfies the three non-overlap conditions of
the defined rule: the slot does not start inside the busy interval, does
not end inside it, and does not contain it. -/
theorem claim2_emitted_slots_never_overlap_busy
    (busy_periods : List BusyInterval) (start_datetime end_datetime duration_minutes : Nat)
    (slot : Slot) (b : BusyInterval) (slots : List Slot)
    (hq : get_available_slots (.ok busy_periods) start_datetime end_datetime duration_minutes
      = .ok slots)
    (hmem : slot ∈ slots) (hb : b ∈ busy_periods) :
    ¬(b.start ≤ slot.start ∧ slot.start < b.finish) ∧
    ¬(b.start < slot.start + duration_minutes ∧ slot.start + duration_minutes ≤ b.finish) ∧
    ¬(slot.start ≤ b.start ∧ b.finish ≤ slot.start + duration_minutes) := by
  have hslots : slots = slotsLoop end_datetime duration_minutes busy_periods end_datetime
      (dayAnchor start_datetime) := by
    simpa [get_available_slots] using hq.symm
  subst hslots
  obtain ⟨hf, -, -, hover, -⟩ := slotsLoop_mem _ _ _ _ _ _ hmem
  have h := hover b hb
  rw [hf] at h
  simpa [overlapsBusy, not_or] using h

/-- Witness for C2 at a concrete computation: the 9:30 slot of Scenario B
does not overlap the 10:00-10:30 busy interval. -/
theorem claim2_witness :
    ¬((⟨600, 630⟩ : BusyInterval).start ≤ (570 : Nat) ∧ (570 : Nat) < (⟨600, 630⟩ : BusyInterval).finish) ∧
    ¬((⟨600, 630⟩ : BusyInterval).start < 570 + 30 ∧ 570 + 30 ≤ (⟨600, 630⟩ : BusyInterval).finish) ∧
    ¬((570 : Nat) ≤ (⟨600, 630⟩ : BusyInterval).start ∧ (⟨600, 630⟩ : BusyInterval).finish ≤ 570 + 30) :=
  claim2_emitted_slots_never_overlap_busy [⟨600, 630⟩] 0 1440 30 ⟨570, 600⟩ ⟨600, 630⟩
    (scenario_a_slots.filter fun slot => slot.start ≠ 600) (by rfl)
    (by decide) (by decide)

/-- C3 counterexample: with the positive duration 90 over one full day and
no busy intervals, the computation emits the slot 16:30-18:00, whose last
minute falls at hour 17, outside business hours — so the claim's
end-containment fails for general positive durations. -/
theorem claim3_counterexample :
    get_available_slots (.ok []) 0 1440 90 =
      .ok [⟨540, 630⟩, ⟨630, 720⟩, ⟨720, 810⟩, ⟨810, 900⟩, ⟨900, 990⟩, ⟨990, 1080⟩] ∧
    ¬ hourOf (1080 - 1) < business_end_hour :=
  ⟨rfl, by decide⟩

/-- C3 amended: every emitted slot starts at an hour inside business hours;
when additionally the duration divides 60, the slot's last minute also lies
inside business hours, so the slot sits entirely within them.  (For
durations not dividing 60, the emitted slot may spill past the end of
business hours, as the counterexample with duration 90 shows.) -/
theorem claim3_amended
    (busy_periods : List BusyInterval) (start_datetime end_datetime duration_minutes : Nat)
    (slots : List Slot) (slot : Slot)
    (hq : get_available_slots (.ok busy_periods) start_datetime end_datetime duration_minutes
      = .ok slots)
    (hmem : slot ∈ slots) :
    (business_start_hour ≤ hourOf slot.start ∧ hourOf slot.start < business_end_hour) ∧
    (duration_minutes ∣ 60 →
      business_start_hour ≤ hourOf (slot.finish - 1) ∧
        hourOf (slot.finish - 1) < business_end_hour) := by
  have hslots : slots = slotsLoop end_datetime duration_minutes busy_periods end_datetime
      (dayAnchor start_datetime) := by
    simpa [get_available_slots] using hq.symm
  subst hslots
  obtain ⟨hf, hh1, hh2, -, k, hk⟩ := slotsLoop_mem _ _ _ _ _ _ hmem
  refine ⟨⟨hh1, hh2⟩, fun hdvd => ?_⟩
  have hdpos : 0 < duration_minutes := Nat.pos_of_dvd_of_pos hdvd (by norm_num)
  obtain ⟨m, hm⟩ := hdvd
  obtain ⟨m', rfl⟩ : ∃ m', m = m' + 1 := by
    refine ⟨m - 1, ?_⟩
    rcases Nat.eq_zero_or_pos m with rfl | hmpos
    · simp at hm
    · omega
  have hanchor : dayAnchor start_datetime % 60 = 0 := by
    unfold dayAnchor business_start_hour
    omega
  have hmod : slot.start % 60 = duration_minutes * (k % (m' + 1)) := by
    rw [hk, Nat.add_mod, hanchor, Nat.zero_add, Nat.mod_mod_of_dvd _ dvd_rfl, hm,
      Nat.mul_comm k duration_minutes, Nat.mul_mod_mul_left]
  have hkm : k % (m' + 1) ≤ m' := Nat.lt_succ_iff.mp (Nat.mod_lt _ (Nat.succ_pos m'))
  have hle : slot.start % 60 + duration_minutes ≤ 60 := by
    calc slot.start % 60 + duration_minutes
        = duration_minutes * (k % (m' + 1)) + duration_minutes := by rw [hmod]
      _ ≤ duration_minutes * m' + duration_minutes := by gcongr
      _ = duration_minutes * (m' + 1) := by ring
      _ = 60 := hm.symm
  rw [hf]
  simp only [hourOf, business_start_hour, business_end_hour] at hh1 hh2 ⊢
  constructor <;> omega

/-- Witness for C3 amended at a concrete computation: the 09:00-09:30 slot
of Scenario A starts and ends inside business hours. -/
theorem claim3_witness :
    (business_start_hour ≤ hourOf (540 : Nat) ∧ hourOf 540 < business_end_hour) ∧
    ((30 : Nat) ∣ 60 →
      business_start_hour ≤ hourOf ((570 : Nat) - 1) ∧ hourOf ((570 : Nat) - 1) < business_end_hour) :=
  claim3_amended [] 0 1440 30 scenario_a_slots ⟨540, 570⟩ rfl (by decide)

/-- C4 counterexample: with range_end 11:00 before range_start 12:00 of the
same day (so range_end ≤ range_start), no busy intervals and duration 30,
the computation still emits four slots starting at the 09:00 anchor of the
day, so the result is not the empty sequence. -/
theorem claim4_counterexample :
    (660 : Nat) ≤ 720 ∧
    get_available_slots (.ok []) 720 660 30 ≠ .ok [] := by
  refine ⟨by norm_num, ?_⟩
  have h : get_available_slots (.ok []) 720 660 30 =
      .ok [⟨540, 570⟩, ⟨570, 600⟩, ⟨600, 630⟩, ⟨630, 660⟩] := rfl
  rw [h]
  simp

/-- C4 amended: the computation returns the empty sequence — as a normal
value, never an error — whenever range_end is at or before 09:00 of
range_start's local day (the cursor's true starting point); for
range_end ≤ range_start in general, slots between that 09:00 anchor and
range_end may still be emitted, as the counterexample shows. -/
theorem claim4_amended (busy_query : Except Unit (List BusyInterval))
    (start_datetime end_datetime duration_minutes : Nat)
    (h : end_datetime ≤ dayAnchor start_datetime) :
    get_available_slots busy_query start_datetime end_datetime duration_minutes = .ok [] := by
  match busy_query with
  | .error _ => rfl
  | .ok busy_periods =>
    show Except.ok (slotsLoop end_datetime duration_minutes busy_periods end_datetime
      (dayAnchor start_datetime)) = .ok []
    cases hend : end_datetime with
    | zero => rfl
    | succ e =>
      rw [slotsLoop, if_neg]
      omega

/-- Witness for C4 amended: a range ending at 08:20, before the 09:00
anchor, yields the empty slot list even with a free calendar. -/
theorem claim4_witness :
    (500 : Nat) ≤ dayAnchor 720 ∧
    get_available_slots (.ok [⟨0, 1⟩]) 720 500 30 = .ok [] :=
  ⟨by decide, claim4_amended (.ok [⟨0, 1⟩]) 720 500 30 (by decide)⟩

/-- C5 counterexample: with range_start at 09:10 (minute 550), the very
first emitted slot starts at 09:00 (minute 540), which is not
range_start plus any integer multiple of the 30-minute duration — the grid
is anchored to 09:00 of the day, not to range_start. -/
theorem claim5_counterexample :
    get_available_slots (.ok []) 550 640 30 =
      .ok [⟨540, 570⟩, ⟨570, 600⟩, ⟨600, 630⟩, ⟨630, 660⟩] ∧
    ¬ ∃ k : ℤ, (540 : ℤ) = 550 + k * 30 := by
  refine ⟨rfl, ?_⟩
  rintro ⟨k, hk⟩
  omega

/-- C5 amended: every emitted slot's start equals the 09:00 anchor of
range_start's local day plus an integer multiple of the duration — the
candidate grid advances in fixed duration-minute increments from that
anchor (start_datetime with its time replaced by 09:00), not from
range_start itself and not from wall-clock midnight. -/
theorem claim5_amended
    (busy_periods : List BusyInterval) (start_datetime end_datetime duration_minutes : Nat)
    (slots : List Slot) (slot : Slot)
    (hq : get_available_slots (.ok busy_periods) start_datetime end_datetime duration_minutes
      = .ok slots)
    (hmem : slot ∈ slots) :
    ∃ k : Nat, slot.start = dayAnchor start_datetime + k * duration_minutes := by
  have hslots : slots = slotsLoop end_datetime duration_minutes busy_periods end_datetime
      (dayAnchor start_datetime) := by
    simpa [get_available_slots] using hq.symm
  subst hslots
  exact (slotsLoop_mem _ _ _ _ _ _ hmem).2.2.2.2

/-- Witness for C5 amended: the 10:30 slot of Scenario A starts three
30-minute steps after the 09:00 anchor. -/
theorem claim5_witness :
    ∃ k : Nat, (630 : Nat) = dayAnchor 0 + k * 30 :=
  claim5_amended [] 0 1440 30 scenario_a_slots ⟨630, 660⟩ rfl (by decide)

/-- C6: with business hours 9-17, duration 30 and a range covering one full
day, an empty busy set yields exactly sixteen slots, the first starting at
09:00 (minute 540) and the last at 16:30 (minute 990); the single busy
interval 10:00-10:30 removes exactly the 10:00 slot, leaving fifteen. -/
theorem claim6_full_day_scenarios :
    get_available_slots (.ok []) 0 1440 30 = .ok scenario_a_slots ∧
    scenario_a_slots.length = 16 ∧
    scenario_a_slots.head? = some ⟨540, 570⟩ ∧
    scenario_a_slots.getLast? = some ⟨990, 1020⟩ ∧
    get_available_slots (.ok [⟨600, 630⟩]) 0 1440 30 =
      .ok (scenario_a_slots.filter fun slot => slot.start ≠ 600) ∧
    (scenario_a_slots.filter fun slot => slot.start ≠ 600).length = 15 :=
  ⟨rfl, rfl, rfl, rfl, rfl, rfl⟩

/-- C7 counterexample: when the busy-interval query fails, the computation
does not surface a CalendarUnavailable error — the exception handler
returns the empty list as a normal result. -/
theorem claim7_counterexample :
    get_available_slots (.error ()) 0 1440 30 ≠ .error CalendarError.calendarUnavailable ∧
    get_available_slots (.error ()) 0 1440 30 = .ok [] := by
  refine ⟨?_, rfl⟩
  intro h
  simp [get_available_slots] at h

/-- C7 amended: whenever the busy-interval query fails, the computation
emits no slots, but it swallows the failure and returns the empty list as
a normal result instead of surfacing a CalendarUnavailable error. -/
theorem claim7_amended (start_datetime end_datetime duration_minutes : Nat) :
    get_available_slots (.error ()) start_datetime end_datetime duration_minutes = .ok [] :=
  rfl

/-- Half-even rounding agrees with round-to-nearest whenever the value is
not exactly halfway between two integers. -/
theorem pyRound_eq_round (x : ℚ) (h : Int.fract x ≠ 1 / 2) : pyRound x = round x := by
  unfold pyRound
  rw [if_neg h]

/-- A third of an integer is never exactly halfway between two integers:
its fractional part is 0, 1/3 or 2/3. -/
theorem fract_natCast_div_three (n : Nat) : Int.fract ((n : ℚ) / 3) ≠ 1 / 2 := by
  have hn : (n : ℚ) = 3 * ((n / 3 : Nat) : ℚ) + ((n % 3 : Nat) : ℚ) := by
    have h0 := Nat.div_add_mod n 3
    conv_lhs => rw [← h0]
    push_cast
    ring
  have hsplit : (n : ℚ) / 3 = ((n / 3 : Nat) : ℚ) + ((n % 3 : Nat) : ℚ) / 3 := by
    rw [hn]; ring
  rw [hsplit, Int.fract_nat_add]
  have h3 : n % 3 = 0 ∨ n % 3 = 1 ∨ n % 3 = 2 := by omega
  rcases h3 with h | h | h <;> rw [h]
  · norm_num
  · rw [Int.fract_eq_self.mpr (by norm_num)]; norm_num
  · rw [Int.fract_eq_self.mpr (by norm_num)]; norm_num

/-- C8: for every category string and every duration, the computed cost
equals the category's hourly rate (consultation 200, follow_up 150,
general 100, general as fallback) pro-rated linearly by duration and
rounded to 2 decimal places half-up — the source's half-even rounding can
never disagree with half-up here because every exact cost in cents is a
third of an integer, never a half-cent; in particular a 60-minute
consultation costs 200.00 and 30 minutes of an unknown category cost
50.00. -/
theorem claim8_pricing :
    (∀ (appointment_type : String) (duration : Nat),
      get_appointment_cost appointment_type duration = quote_spec appointment_type duration) ∧
    get_appointment_cost "consultation" 60 = 200 ∧
    get_appointment_cost "unknown_category" 30 = 50 := by
  have key : ∀ (t : String) (d : Nat),
      get_appointment_cost t d = quote_spec t d := by
    intro t d
    unfold get_appointment_cost quote_spec round2 base_rate
    split_ifs
    · have harg : (200 : ℚ) / 60 * d * 100 = ((1000 * d : Nat) : ℚ) / 3 := by
        push_cast; ring
      rw [harg, pyRound_eq_round _ (fract_natCast_div_three _)]
    · have harg : (150 : ℚ) / 60 * d * 100 = ((750 * d : Nat) : ℚ) / 3 := by
        push_cast; ring
      rw [harg, pyRound_eq_round _ (fract_natCast_div_three _)]
    · have harg : (100 : ℚ) / 60 * d * 100 = ((500 * d : Nat) : ℚ) / 3 := by
        push_cast; ring
      rw [harg, pyRound_eq_round _ (fract_natCast_div_three _)]
  refine ⟨key, ?_, ?_⟩
  · unfold get_appointment_cost round2 base_rate
    rw [if_pos rfl]
    rw [show (200 : ℚ) / 60 * ((60 : Nat) : ℚ) * 100 = ((20000 : ℤ) : ℚ) by push_cast; norm_num]
    rw [pyRound_eq_round _ (by rw [Int.fract_intCast]; norm_num), round_intCast]
    norm_num
  · unfold get_appointment_cost round2 base_rate
    rw [if_neg (by decide), if_neg (by decide)]
    rw [show (100 : ℚ) / 60 * ((30 : Nat) : ℚ) * 100 = ((5000 : ℤ) : ℚ) by push_cast; norm_num]
    rw [pyRound_eq_round _ (by rw [Int.fract_intCast]; norm_num), round_intCast]
    norm_num

/-- C1 counterexample: a slot that is occupied at confirmation time — it
overlaps the busy interval a re-query would return — is nonetheless
written: the confirmation submits the calendar event and reports success
instead of failing with SlotNoLongerAvailable. -/
theorem claim1_counterexample :
    ([(⟨540, 570⟩ : BusyInterval)].any (overlapsBusy 540 570) = true) ∧
    confirm_selected_slot true ⟨540, 570⟩ ⟨"pat@example.com", "Pat", "555-0100", "none"⟩ "general"
      = (true, some
          { summary := "general - Pat",
            description := "Type: general\nPhone: 555-0100\nNotes: none",
            start := 540, finish := 570, attendee := "pat@example.com" }) :=
  ⟨by decide, rfl⟩

/-- C1 amended: confirmation performs no availability re-validation — the
current busy intervals are not even an input to it.  Even when the
selected slot overlaps a busy interval at confirmation time, the calendar
write is submitted and confirmation reports success (whenever the insert
itself succeeds); no SlotNoLongerAvailable failure path exists in the
code. -/
theorem claim1_amended (busy_now : List BusyInterval) (slot : Slot)
    (customer_details : CustomerDetails) (appointment_type : String)
    (h : busy_now.any (overlapsBusy slot.start slot.finish) = true) :
    (confirm_selected_slot true slot customer_details appointment_type).1 = true ∧
    (confirm_selected_slot true slot customer_details appointment_type).2.isSome = true :=
  ⟨rfl, rfl⟩

/-- Witness for C1 amended: the 09:00-09:30 slot is busy right now, and
its confirmation still succeeds with a write submitted. -/
theorem claim1_witness :
    (confirm_selected_slot true ⟨540, 570⟩ ⟨"pat@example.com", "Pat", "555-0100", "none"⟩
      "follow_up").1 = true ∧
    (confirm_selected_slot true ⟨540, 570⟩ ⟨"pat@example.com", "Pat", "555-0100", "none"⟩
      "follow_up").2.isSome = true :=
  claim1_amended [⟨540, 570⟩] ⟨540, 570⟩ ⟨"pat@example.com", "Pat", "555-0100", "none"⟩
    "follow_up" (by decide)

/-- C9 counterexample: going back from Payment (step 3) to ConfirmDetails
(step 2) leaves the payment reference in place — it is not discarded. -/
theorem claim9_counterexample :
    go_back { booking_step := 3, selected_slot := some ⟨540, 570⟩,
              customer_details := some ⟨"a@b.c", "Ann", "555", "n"⟩,
              payment_url := some "pay_ref", appointment_type := "general" }
      = { booking_step := 2, selected_slot := some ⟨540, 570⟩,
          customer_details := some ⟨"a@b.c", "Ann", "555", "n"⟩,
          payment_url := some "pay_ref", appointment_type := "general" } ∧
    some "pay_ref" ≠ (none : Option String) :=
  ⟨rfl, by simp⟩

/-- C9 amended: backward transitions change only booking_step; the
selected slot and customer details are preserved, and — contrary to the
claim — the payment reference is preserved as well: no state is
discarded on back-navigation. -/
theorem claim9_amended (s : SessionState) :
    ((go_back s).booking_step = s.booking_step - 1 ∧
      (go_back s).selected_slot = s.selected_slot ∧
      (go_back s).customer_details = s.customer_details ∧
      (go_back s).payment_url = s.payment_url) ∧
    ((back_from_payment s).booking_step = 2 ∧
      (back_from_payment s).selected_slot = s.selected_slot ∧
      (back_from_payment s).customer_details = s.customer_details ∧
      (back_from_payment s).payment_url = s.payment_url) :=
  ⟨⟨rfl, rfl, rfl, rfl⟩, ⟨rfl, rfl, rfl, rfl⟩⟩

/-- C10: for every successful confirmation, the written event's interval
is exactly the selected slot's: its start equals the slot's start, and its
end equals the slot's start plus the recomputed duration (slot end minus
slot start), which equals the slot's end. -/
theorem claim10_event_interval_matches_slot (insert_ok : Bool) (slot : Slot)
    (customer_details : CustomerDetails) (appointment_type : String) (event : Event)
    (hvalid : slot.start ≤ slot.finish)
    (h : (confirm_selected_slot insert_ok slot customer_details appointment_type).2
      = some event) :
    event.start = slot.start ∧
    event.finish = slot.start + (slot.finish - slot.start) ∧
    event.finish = slot.finish := by
  cases insert_ok with
  | false => exact Option.noConfusion h
  | true =>
    injection h with h'
    rw [← h']
    refine ⟨rfl, rfl, ?_⟩
    show slot.start + (slot.finish - slot.start) = slot.finish
    omega

/-- Witness for C10 at a concrete confirmation: the event written for the
09:00-09:30 slot spans exactly 09:00-09:30. -/
theorem claim10_witness :
    (Event.mk "general - Ann" "Type: general\nPhone: 555\nNotes: n" 540 570 "a@b.c").start = 540 ∧
    (Event.mk "general - Ann" "Type: general\nPhone: 555\nNotes: n" 540 570 "a@b.c").finish
      = 540 + (570 - 540) ∧
    (Event.mk "general - Ann" "Type: general\nPhone: 555\nNotes: n" 540 570 "a@b.c").finish
      = 570 :=
  claim10_event_interval_matches_slot true ⟨540, 570⟩ ⟨"a@b.c", "Ann", "555", "n"⟩ "general"
    (Event.mk "general - Ann" "Type: general\nPhone: 555\nNotes: n" 540 570 "a@b.c")
    (by norm_num) rfl

end Appointment
